import Mathlib

/-!
Shallow embedding of the `xpx-typescript-angular-sdk` upload service
(`RemoteUploadService` in `nem-announce-resource.ts`) and of the
`NemAnnounceResult` model, together with theorems settling the frozen
claims about the repository.

External collaborators (the HTTP transport, the flatbuffers decoder
`ResourceHashMessage.getRootAsResourceHashMessage`, the transaction
signer and announcer of `RemoteTransactionAnnounceService`, and the
JSON validity test `Helpers.isJSONString`) are modelled as parameters
of the embedded operations, exactly as the spec treats them
(out-of-scope collaborators).  The base64 codec (`btoa` and the
`typescript-base64-arraybuffer` `decode`) is embedded concretely as
standard base64 over byte lists.
-/

set_option maxHeartbeats 1000000

namespace XpxSdk

/-- A JavaScript field value that may be `null`, `undefined`, or present.
The TypeScript validation code distinguishes all three
(`payload.text === null || payload.text === undefined || payload.text === ''`). -/
inductive JsOpt (α : Type) where
  | null : JsOpt α
  | undef : JsOpt α
  | val : α → JsOpt α
deriving DecidableEq, Repr

/-! ## Base64 codec

`btoa` (browser builtin used at `payload.text = btoa(payload.text)`) and
`decode` from `typescript-base64-arraybuffer` (used at
`const data = decode(res.body)`), embedded as standard base64. -/

/-- The base64 alphabet: maps a 6-bit value to its character. -/
def sixBitToChar (n : Nat) : Char :=
  if n < 26 then Char.ofNat (65 + n)
  else if n < 52 then Char.ofNat (97 + (n - 26))
  else if n < 62 then Char.ofNat (48 + (n - 52))
  else if n = 62 then '+'
  else '/'

/-- Inverse of the base64 alphabet: maps a character back to its 6-bit value. -/
def charToSixBit (c : Char) : Option Nat :=
  let n := c.toNat
  if 65 ≤ n && n ≤ 90 then some (n - 65)
  else if 97 ≤ n && n ≤ 122 then some (n - 97 + 26)
  else if 48 ≤ n && n ≤ 57 then some (n - 48 + 52)
  else if n = 43 then some 62
  else if n = 47 then some 63
  else none

/-- Base64-encode a byte list (standard padding with trailing characters). -/
def b64EncodeBytes : List Nat → List Char
  | [] => []
  | [b1] =>
      [sixBitToChar (b1 / 4), sixBitToChar (b1 % 4 * 16), '=', '=']
  | [b1, b2] =>
      [sixBitToChar (b1 / 4), sixBitToChar (b1 % 4 * 16 + b2 / 16),
       sixBitToChar (b2 % 16 * 4), '=']
  | b1 :: b2 :: b3 :: rest =>
      sixBitToChar (b1 / 4) :: sixBitToChar (b1 % 4 * 16 + b2 / 16) ::
      sixBitToChar (b2 % 16 * 4 + b3 / 64) :: sixBitToChar (b3 % 64) ::
      b64EncodeBytes rest

/-- Base64-decode a character list back into bytes; fails on data that is
not valid base64. -/
def b64DecodeBytes : List Char → Except String (List Nat)
  | [] => Except.ok []
  | c1 :: c2 :: c3 :: c4 :: rest =>
      match charToSixBit c1, charToSixBit c2 with
      | some n1, some n2 =>
          if c3 = '=' then
            if c4 = '=' then
              if rest.isEmpty then Except.ok [n1 * 4 + n2 / 16]
              else Except.error "base64: data after padding"
            else Except.error "base64: invalid padding"
          else
            match charToSixBit c3 with
            | some n3 =>
                if c4 = '=' then
                  if rest.isEmpty then
                    Except.ok [n1 * 4 + n2 / 16, n2 % 16 * 16 + n3 / 4]
                  else Except.error "base64: data after padding"
                else
                  match charToSixBit c4 with
                  | some n4 =>
                      match b64DecodeBytes rest with
                      | Except.ok bs =>
                          Except.ok ((n1 * 4 + n2 / 16) ::
                            (n2 % 16 * 16 + n3 / 4) :: (n3 % 4 * 64 + n4) :: bs)
                      | Except.error e => Except.error e
                  | none => Except.error "base64: invalid character"
            | none => Except.error "base64: invalid character"
      | _, _ => Except.error "base64: invalid character"
  | _ => Except.error "base64: invalid length"

/-- The browser `btoa`: base64 of the code points of a (latin-1) string. -/
def btoa (s : String) : String :=
  String.mk (b64EncodeBytes (s.data.map Char.toNat))

/-- The `typescript-base64-arraybuffer` `decode`: base64 string to bytes. -/
def b64decode (s : String) : Except String (List Nat) :=
  b64DecodeBytes s.data

/-! ### Base64 round-trip -/

theorem charToSixBit_sixBitToChar {n : Nat} (h : n < 64) :
    charToSixBit (sixBitToChar n) = some n := by
  have : ∀ m : Fin 64, charToSixBit (sixBitToChar m.val) = some m.val := by decide
  exact this ⟨n, h⟩

theorem sixBitToChar_ne_pad {n : Nat} (h : n < 64) : sixBitToChar n ≠ '=' := by
  have : ∀ m : Fin 64, sixBitToChar m.val ≠ '=' := by decide
  exact this ⟨n, h⟩

theorem b64_decode_encode :
    ∀ bs : List Nat, (∀ b ∈ bs, b < 256) →
      b64DecodeBytes (b64EncodeBytes bs) = Except.ok bs := by
  intro bs
  induction bs using b64EncodeBytes.induct with
  | case1 =>
      intro _
      rfl
  | case2 b1 =>
      intro hb
      have h1 : b1 < 256 := hb b1 (by simp)
      have e1 : b1 / 4 < 64 := by omega
      have e2 : b1 % 4 * 16 < 64 := by omega
      simp [b64EncodeBytes, b64DecodeBytes,
        charToSixBit_sixBitToChar e1, charToSixBit_sixBitToChar e2]
      omega
  | case3 b1 b2 =>
      intro hb
      have h1 : b1 < 256 := hb b1 (by simp)
      have h2 : b2 < 256 := hb b2 (by simp)
      have e1 : b1 / 4 < 64 := by omega
      have e2 : b1 % 4 * 16 + b2 / 16 < 64 := by omega
      have e3 : b2 % 16 * 4 < 64 := by omega
      simp [b64EncodeBytes, b64DecodeBytes,
        charToSixBit_sixBitToChar e1, charToSixBit_sixBitToChar e2,
        charToSixBit_sixBitToChar e3, sixBitToChar_ne_pad e3]
      omega
  | case4 b1 b2 b3 rest ih =>
      intro hb
      have h1 : b1 < 256 := hb b1 (by simp)
      have h2 : b2 < 256 := hb b2 (by simp)
      have h3 : b3 < 256 := hb b3 (by simp)
      have hrest : ∀ b ∈ rest, b < 256 := by
        intro b hbr
        exact hb b (by simp [hbr])
      have e1 : b1 / 4 < 64 := by omega
      have e2 : b1 % 4 * 16 + b2 / 16 < 64 := by omega
      have e3 : b2 % 16 * 4 + b3 / 64 < 64 := by omega
      have e4 : b3 % 64 < 64 := by omega
      simp [b64EncodeBytes, b64DecodeBytes,
        charToSixBit_sixBitToChar e1, charToSixBit_sixBitToChar e2,
        charToSixBit_sixBitToChar e3, charToSixBit_sixBitToChar e4,
        sixBitToChar_ne_pad e3, sixBitToChar_ne_pad e4, ih hrest]
      omega

/-! ## Data model

`UploadTextRequest`, `UploadBinaryRequest`, `ResourceHashMessage`,
`SignedTransaction` and `NemAnnounceResult` as used by
`RemoteUploadService`.  The request/response classes themselves are
repository code outside the provided source file; their field lists are
taken from the accesses in `RemoteUploadService` and from the spec's
data-model section. -/

/-- Modelled from the spec: `UploadTextRequest` — caller-supplied text
payload, metadata, key material and message type (fields as accessed by
`RemoteUploadService`: `text`, `metadata`, `senderPrivateKey`,
`recieverPublicKey`, `messageType`). -/
structure UploadTextRequest where
  text : JsOpt String
  metadata : JsOpt String
  senderPrivateKey : String
  recieverPublicKey : String
  messageType : String
deriving DecidableEq, Repr

/-- Modelled from the spec: `UploadBinaryRequest` — caller-supplied binary
payload (`data`, a byte sequence), metadata, key material and message
type. -/
structure UploadBinaryRequest where
  data : JsOpt (List Nat)
  metadata : JsOpt String
  senderPrivateKey : String
  recieverPublicKey : String
  messageType : String
deriving DecidableEq, Repr

/-- Modelled from the spec: `ResourceHashMessage` — decoded response record
containing the content-addressed hash of the stored payload.  The
flatbuffers accessors are external; only the hash content matters here. -/
structure ResourceHashMessage where
  hash : String
deriving DecidableEq, Repr

/-- Modelled from the spec: `SignedTransaction` — opaque signed-transaction
payload ready for network submission. -/
structure SignedTransaction where
  raw : String
deriving DecidableEq, Repr

/-- `TypeNemAnnounceResult` (source lines 26-30): Validation = 1,
HeartBeat = 2, Status = 4. -/
inductive TypeNemAnnounceResult where
  | Validation : TypeNemAnnounceResult
  | HeartBeat : TypeNemAnnounceResult
  | Status : TypeNemAnnounceResult
deriving DecidableEq, Repr

/-- The numeric value of each `TypeNemAnnounceResult` member. -/
def TypeNemAnnounceResult.toNat : TypeNemAnnounceResult → Nat
  | .Validation => 1
  | .HeartBeat => 2
  | .Status => 4

/-- `CodeNemAnnounceResult` is the TypeScript union type 0 | 1 | ... | 19. -/
abbrev CodeNemAnnounceResult := Fin 20

/-- `NemAnnounceResult` (source lines 81-98): readonly type, code, message
and the two transaction hashes (`NemHash` modelled as a string). -/
structure NemAnnounceResult where
  type : TypeNemAnnounceResult
  code : CodeNemAnnounceResult
  message : String
  transactionHash : String
  innerTransactionHash : String
deriving DecidableEq, Repr

/-! ### The documented type/code meaning table (claim C9)

The meanings are represented symbolically so that the table transcribed
from the source doc comment can be compared with the table transcribed
from the spec glossary. -/

/-- Symbolic meanings of the documented type/code pairs. -/
inductive CodeMeaning where
  | neutral
  | success
  | unknownFailure
  | deadlinePassed
  | deadlineTooFarInFuture
  | insufficientBalance
  | messageTooLarge
  | hashAlreadyInDatabase
  | badSignature
  | timestampTooOld
  | timestampInFuture
  | unusableEntity
  | inferiorChainScore
  | chainValidationFailed
  | conflictingImportanceTransfer
  | tooManyTransactions
  | harvesterSignedBlockTransaction
  | conflictingPriorImportanceTransaction
  | duplicateImportanceActivation
  | importanceDeactivationNotActive
  | heartBeatSuccess
  | statusUnknown
  | statusStopped
  | statusStarting
  | statusRunning
  | statusBooting
  | statusBooted
  | statusSynchronized
  | statusNoRemoteNode
  | statusLoadingChain
deriving DecidableEq, Repr

/-- The type/code meaning table transcribed from the source doc comment
(lines 32-73).  The status meanings are the codes the doc comment lists
after the heart-beat codes; they attach to the `Status` member of
`TypeNemAnnounceResult` (numeric value 4), the only remaining member of
the enum. -/
def codeMeaning : TypeNemAnnounceResult → CodeNemAnnounceResult → Option CodeMeaning
  | .Validation, c =>
      match c.val with
      | 0 => some .neutral
      | 1 => some .success
      | 2 => some .unknownFailure
      | 3 => some .deadlinePassed
      | 4 => some .deadlineTooFarInFuture
      | 5 => some .insufficientBalance
      | 6 => some .messageTooLarge
      | 7 => some .hashAlreadyInDatabase
      | 8 => some .badSignature
      | 9 => some .timestampTooOld
      | 10 => some .timestampInFuture
      | 11 => some .unusableEntity
      | 12 => some .inferiorChainScore
      | 13 => some .chainValidationFailed
      | 14 => some .conflictingImportanceTransfer
      | 15 => some .tooManyTransactions
      | 16 => some .harvesterSignedBlockTransaction
      | 17 => some .conflictingPriorImportanceTransaction
      | 18 => some .duplicateImportanceActivation
      | 19 => some .importanceDeactivationNotActive
      | _ => none
  | .HeartBeat, c =>
      match c.val with
      | 1 => some .heartBeatSuccess
      | _ => none
  | .Status, c =>
      match c.val with
      | 0 => some .statusUnknown
      | 1 => some .statusStopped
      | 2 => some .statusStarting
      | 3 => some .statusRunning
      | 4 => some .statusBooting
      | 5 => some .statusBooted
      | 6 => some .statusSynchronized
      | 7 => some .statusNoRemoteNode
      | 8 => some .statusLoadingChain
      | _ => none

/-- The type/code meaning table transcribed independently from the spec
glossary (NemAnnounceResult type/code table), for comparison with
`codeMeaning`. -/
def specGlossaryCodeMeaning (t : TypeNemAnnounceResult) (c : CodeNemAnnounceResult) :
    Option CodeMeaning :=
  match t with
  | .Validation =>
      if c.val = 0 then some .neutral
      else if c.val = 1 then some .success
      else if c.val = 2 then some .unknownFailure
      else if c.val = 3 then some .deadlinePassed
      else if c.val = 4 then some .deadlineTooFarInFuture
      else if c.val = 5 then some .insufficientBalance
      else if c.val = 6 then some .messageTooLarge
      else if c.val = 7 then some .hashAlreadyInDatabase
      else if c.val = 8 then some .badSignature
      else if c.val = 9 then some .timestampTooOld
      else if c.val = 10 then some .timestampInFuture
      else if c.val = 11 then some .unusableEntity
      else if c.val = 12 then some .inferiorChainScore
      else if c.val = 13 then some .chainValidationFailed
      else if c.val = 14 then some .conflictingImportanceTransfer
      else if c.val = 15 then some .tooManyTransactions
      else if c.val = 16 then some .harvesterSignedBlockTransaction
      else if c.val = 17 then some .conflictingPriorImportanceTransaction
      else if c.val = 18 then some .duplicateImportanceActivation
      else if c.val = 19 then some .importanceDeactivationNotActive
      else none
  | .HeartBeat => if c.val = 1 then some .heartBeatSuccess else none
  | .Status =>
      if c.val = 0 then some .statusUnknown
      else if c.val = 1 then some .statusStopped
      else if c.val = 2 then some .statusStarting
      else if c.val = 3 then some .statusRunning
      else if c.val = 4 then some .statusBooting
      else if c.val = 5 then some .statusBooted
      else if c.val = 6 then some .statusSynchronized
      else if c.val = 7 then some .statusNoRemoteNode
      else if c.val = 8 then some .statusLoadingChain
      else none

/-! ## RemoteUploadService embedding

The synchronous part of each operation either throws (TypeScript
`throw new Error(...)`, before any HTTP call) or produces a call
descriptor: the endpoint, the payload record after the in-place
mutation the code performs, the request body (`JSON.stringify` of the
mutated record, modelled as the record snapshot itself) and the
`returnHash` flag. -/

/-- Result of the synchronous part of a service call: either a thrown
validation error or a produced value. -/
inductive SyncResult (α : Type) where
  | thrown : String → SyncResult α
  | ok : α → SyncResult α
deriving DecidableEq, Repr

/-- Whether the synchronous part threw. -/
def SyncResult.isThrown {α : Type} : SyncResult α → Bool
  | .thrown _ => true
  | .ok _ => false

/-- Continue after the synchronous part: a thrown error propagates, a
produced call descriptor feeds the subscribed pipeline. -/
def SyncResult.andThen {α β : Type} : SyncResult α → (α → β) → SyncResult β
  | .thrown m, _ => .thrown m
  | .ok a, f => .ok (f a)

/-- Call descriptor produced by `uploadTextToIPFS` when validation passes:
the endpoint, the caller record after `payload.text = btoa(payload.text)`,
the serialized body (snapshot of the same mutated record) and the flag. -/
structure TextIpfsCall where
  endpoint : String
  payloadAfter : UploadTextRequest
  bodyData : UploadTextRequest
  returnHash : Bool
deriving DecidableEq, Repr

/-- Call descriptor produced by `uploadBinaryToIPFS` when validation
passes; the binary payload is serialized as-is, nothing is mutated. -/
structure BinaryIpfsCall where
  endpoint : String
  payloadAfter : UploadBinaryRequest
  bodyData : UploadBinaryRequest
  returnHash : Bool
deriving DecidableEq, Repr

/-- `RemoteUploadService.uploadTextToIPFS` (source lines 199-278),
synchronous part.  `isJSON` stands for the external
`Helpers.isJSONString`; `baseUrl` for `this.baseUrl`.  The validation
mirrors lines 206-218; on success the code executes
`payload.text = btoa(payload.text)` and `JSON.stringify(payload)`
(lines 229-233). -/
def uploadTextToIPFS (isJSON : JsOpt String → Bool) (baseUrl : String)
    (payload : Option UploadTextRequest) (returnHash : Bool) :
    SyncResult TextIpfsCall :=
  match payload with
  | none => .thrown "The request payload could not be null"
  | some p =>
      match p.text with
      | .null => .thrown "The request payload text field is required"
      | .undef => .thrown "The request payload text field is required"
      | .val t =>
          if t = "" then
            .thrown "The request payload text field is required"
          else if isJSON p.metadata = false then
            .thrown "The request payload metadata field must be a valid JSON"
          else
            let encodedData := btoa t
            let mutated := { p with text := JsOpt.val encodedData }
            .ok { endpoint := baseUrl ++ "upload/text",
                  payloadAfter := mutated,
                  bodyData := mutated,
                  returnHash := returnHash }

/-- `RemoteUploadService.uploadBinaryToIPFS` (source lines 326-393),
synchronous part.  Validation mirrors lines 333-341: only
`payload === null` and `payload.data === null` are rejected (an
`undefined` data field passes), then the metadata JSON check; the body
is `JSON.stringify(payload)` with no mutation and no encoding. -/
def uploadBinaryToIPFS (isJSON : JsOpt String → Bool) (baseUrl : String)
    (payload : Option UploadBinaryRequest) (returnHash : Bool) :
    SyncResult BinaryIpfsCall :=
  match payload with
  | none => .thrown "The request payload could not be null"
  | some p =>
      if p.data = JsOpt.null then
        .thrown "The request payload data field is required"
      else if isJSON p.metadata = false then
        .thrown "The request payload metadata field must be a valid JSON"
      else
        .ok { endpoint := baseUrl ++ "upload/bytes/binary",
              payloadAfter := p,
              bodyData := p,
              returnHash := returnHash }

/-! ### Run semantics

Subscribing to the returned observable performs the HTTP POST and the
downstream steps.  A run is parametrized by the transport (the Angular
`HttpClient`), the external flatbuffers decoder, and the external
signer/announcer of `RemoteTransactionAnnounceService`; it records the
trace of collaborator invocations in order. -/

/-- A request body handed to the transport. -/
inductive ReqBody where
  | textBody : UploadTextRequest → ReqBody
  | binBody : UploadBinaryRequest → ReqBody
deriving DecidableEq, Repr

/-- An observable collaborator invocation. -/
inductive Event where
  | httpPost : String → ReqBody → Event
  | signTx : String → Event
  | announceTx : SignedTransaction → Event
deriving DecidableEq, Repr

/-- Whether an event is a call to the signing or announce collaborator. -/
def Event.isSignOrAnnounce : Event → Bool
  | .signTx _ => true
  | .announceTx _ => true
  | .httpPost _ _ => false

/-- A full HTTP response (`observe: 'response'`); `body` is the text body. -/
structure HttpResponse where
  body : String
deriving DecidableEq, Repr

/-- The HTTP transport: endpoint and body to response or transport error. -/
abbrev Transport : Type := String → ReqBody → Except String HttpResponse

/-- The decode pipeline applied to a successful response body when
`returnHash` is true (source lines 259-274): base64-decode the body,
then interpret the bytes through the external flatbuffers root accessor
`ResourceHashMessage.getRootAsResourceHashMessage` (parameter
`getRoot`).  Decode failures surface on the error channel
(`catchError(Helpers.handleError)`). -/
def decodeUploadResponse (getRoot : List Nat → ResourceHashMessage)
    (body : String) : Except String ResourceHashMessage :=
  match b64decode body with
  | .ok bytes => .ok (getRoot bytes)
  | .error e => .error e

/-- The trace of collaborator invocations of a run (empty when the call
threw synchronously: no HTTP call was attempted). -/
def runTrace {β : Type} : SyncResult (List Event × β) → List Event
  | .thrown _ => []
  | .ok (t, _) => t

/-- The run of `uploadTextToIFPSOnly` (source lines 311-313):
`uploadTextToIPFS(payload, true)` subscribed with a given transport. -/
def uploadTextToIFPSOnlyRun (isJSON : JsOpt String → Bool) (baseUrl : String)
    (getRoot : List Nat → ResourceHashMessage) (transport : Transport)
    (payload : Option UploadTextRequest) :
    SyncResult (List Event × Except String ResourceHashMessage) :=
  (uploadTextToIPFS isJSON baseUrl payload true).andThen fun call =>
    let ev := Event.httpPost call.endpoint (ReqBody.textBody call.bodyData)
    match transport call.endpoint (ReqBody.textBody call.bodyData) with
    | .error e => ([ev], .error e)
    | .ok res => ([ev], decodeUploadResponse getRoot res.body)

/-- The run of `uploadBinaryToIPFSOnly` (source lines 432-434):
`uploadBinaryToIPFS(payload, true)` subscribed with a given transport. -/
def uploadBinaryToIPFSOnlyRun (isJSON : JsOpt String → Bool) (baseUrl : String)
    (getRoot : List Nat → ResourceHashMessage) (transport : Transport)
    (payload : Option UploadBinaryRequest) :
    SyncResult (List Event × Except String ResourceHashMessage) :=
  (uploadBinaryToIPFS isJSON baseUrl payload true).andThen fun call =>
    let ev := Event.httpPost call.endpoint (ReqBody.binBody call.bodyData)
    match transport call.endpoint (ReqBody.binBody call.bodyData) with
    | .error e => ([ev], .error e)
    | .ok res => ([ev], decodeUploadResponse getRoot res.body)

/-- The run of `uploadText` (source lines 291-305):
`uploadTextToIPFS(payload, false)` piped through `switchMap`; the value
the transport emits is the full response `rhm`, and
`signTransaction(rhm.body, payload.senderPrivateKey,
payload.recieverPublicKey, payload.messageType)` feeds
`announceTransaction`.  Note `returnHash` is `false`, so the response is
not decoded before `rhm.body` is handed to the signer. -/
def uploadTextRun (isJSON : JsOpt String → Bool) (baseUrl : String)
    (signTransaction : String → String → String → String → SignedTransaction)
    (announceTransaction : SignedTransaction → NemAnnounceResult)
    (transport : Transport) (payload : Option UploadTextRequest) :
    SyncResult (List Event × Except String NemAnnounceResult) :=
  (uploadTextToIPFS isJSON baseUrl payload false).andThen fun call =>
    let ev := Event.httpPost call.endpoint (ReqBody.textBody call.bodyData)
    match transport call.endpoint (ReqBody.textBody call.bodyData) with
    | .error e => ([ev], .error e)
    | .ok res =>
        let tx := signTransaction res.body call.payloadAfter.senderPrivateKey
          call.payloadAfter.recieverPublicKey call.payloadAfter.messageType
        ([ev, Event.signTx res.body, Event.announceTx tx],
         .ok (announceTransaction tx))

/-- The run of `uploadBinary` (source lines 406-426): same pipeline as
`uploadText` over `uploadBinaryToIPFS(payload, false)` (through a fresh
`RemoteTransactionAnnounceService` with the same configuration). -/
def uploadBinaryRun (isJSON : JsOpt String → Bool) (baseUrl : String)
    (signTransaction : String → String → String → String → SignedTransaction)
    (announceTransaction : SignedTransaction → NemAnnounceResult)
    (transport : Transport) (payload : Option UploadBinaryRequest) :
    SyncResult (List Event × Except String NemAnnounceResult) :=
  (uploadBinaryToIPFS isJSON baseUrl payload false).andThen fun call =>
    let ev := Event.httpPost call.endpoint (ReqBody.binBody call.bodyData)
    match transport call.endpoint (ReqBody.binBody call.bodyData) with
    | .error e => ([ev], .error e)
    | .ok res =>
        let tx := signTransaction res.body call.payloadAfter.senderPrivateKey
          call.payloadAfter.recieverPublicKey call.payloadAfter.messageType
        ([ev, Event.signTx res.body, Event.announceTx tx],
         .ok (announceTransaction tx))

/-- State of the caller-supplied record after a call to the public
operation `uploadTextToIFPSOnly` (the observable-producing part;
mutation of `payload.text` happens synchronously at line 231). -/
def uploadTextPayloadAfter (isJSON : JsOpt String → Bool) (baseUrl : String)
    (payload : Option UploadTextRequest) (returnHash : Bool) :
    Option UploadTextRequest :=
  match uploadTextToIPFS isJSON baseUrl payload returnHash with
  | .thrown _ => payload
  | .ok call => some call.payloadAfter

/-- State of the caller-supplied record after a call to a public binary
upload operation: never mutated. -/
def uploadBinaryPayloadAfter (isJSON : JsOpt String → Bool) (baseUrl : String)
    (payload : Option UploadBinaryRequest) (returnHash : Bool) :
    Option UploadBinaryRequest :=
  match uploadBinaryToIPFS isJSON baseUrl payload returnHash with
  | .thrown _ => payload
  | .ok call => some call.payloadAfter

/-! ## Helper lemmas -/

theorem SyncResult.isThrown_andThen {α β : Type} (r : SyncResult α) (f : α → β) :
    (r.andThen f).isThrown = r.isThrown := by
  cases r <;> rfl

theorem runTrace_andThen_of_thrown {α β : Type} (r : SyncResult α)
    (f : α → List Event × β) (h : r.isThrown = true) :
    runTrace (r.andThen f) = [] := by
  cases r with
  | thrown m => rfl
  | ok a => simp [SyncResult.isThrown] at h

/-- A valid text request reduces `uploadTextToIPFS` to its call
descriptor: endpoint `upload/text`, the text field overwritten with its
base64 encoding, and the mutated record serialized as body. -/
theorem uploadTextToIPFS_valid (isJSON : JsOpt String → Bool) (baseUrl : String)
    (p : UploadTextRequest) (rh : Bool) (t : String)
    (ht : p.text = JsOpt.val t) (hne : t ≠ "") (hj : isJSON p.metadata = true) :
    uploadTextToIPFS isJSON baseUrl (some p) rh =
      .ok { endpoint := baseUrl ++ "upload/text",
            payloadAfter := { p with text := JsOpt.val (btoa t) },
            bodyData := { p with text := JsOpt.val (btoa t) },
            returnHash := rh } := by
  simp [uploadTextToIPFS, ht, hne, hj]

/-- A binary request whose `data` is not strictly null and whose metadata
passes the JSON test reduces `uploadBinaryToIPFS` to its call
descriptor: endpoint `upload/bytes/binary` and the record as-is. -/
theorem uploadBinaryToIPFS_valid (isJSON : JsOpt String → Bool) (baseUrl : String)
    (q : UploadBinaryRequest) (rh : Bool)
    (hd : q.data ≠ JsOpt.null) (hj : isJSON q.metadata = true) :
    uploadBinaryToIPFS isJSON baseUrl (some q) rh =
      .ok { endpoint := baseUrl ++ "upload/bytes/binary",
            payloadAfter := q, bodyData := q, returnHash := rh } := by
  simp [uploadBinaryToIPFS, hd, hj]

/-- A text request with a null, undefined or empty text field makes
`uploadTextToIPFS` throw the required-field error. -/
theorem uploadTextToIPFS_thrown_of_badText (isJSON : JsOpt String → Bool)
    (baseUrl : String) (p : UploadTextRequest) (rh : Bool)
    (hp : p.text = JsOpt.null ∨ p.text = JsOpt.undef ∨ p.text = JsOpt.val "") :
    uploadTextToIPFS isJSON baseUrl (some p) rh =
      .thrown "The request payload text field is required" := by
  rcases hp with hp | hp | hp <;> simp [uploadTextToIPFS, hp]

/-- A text request whose metadata fails the JSON test makes
`uploadTextToIPFS` throw (whichever validation error fires first). -/
theorem uploadTextToIPFS_thrown_of_badMetadata (isJSON : JsOpt String → Bool)
    (baseUrl : String) (p : UploadTextRequest) (rh : Bool)
    (hj : isJSON p.metadata = false) :
    (uploadTextToIPFS isJSON baseUrl (some p) rh).isThrown = true := by
  cases htext : p.text with
  | null => simp [uploadTextToIPFS, htext, SyncResult.isThrown]
  | undef => simp [uploadTextToIPFS, htext, SyncResult.isThrown]
  | val t =>
      by_cases he : t = "" <;>
        simp [uploadTextToIPFS, htext, he, hj, SyncResult.isThrown]

/-- A binary request whose metadata fails the JSON test makes
`uploadBinaryToIPFS` throw (whichever validation error fires first). -/
theorem uploadBinaryToIPFS_thrown_of_badMetadata (isJSON : JsOpt String → Bool)
    (baseUrl : String) (q : UploadBinaryRequest) (rh : Bool)
    (hj : isJSON q.metadata = false) :
    (uploadBinaryToIPFS isJSON baseUrl (some q) rh).isThrown = true := by
  by_cases hd : q.data = JsOpt.null <;>
    simp [uploadBinaryToIPFS, hd, hj, SyncResult.isThrown]

/-! ## Sample values used by witnesses and counterexamples -/

/-- A concrete JSON test accepting everything (the external
`Helpers.isJSONString` is a parameter of the embedding; witnesses need a
concrete instance). -/
def alwaysJSON : JsOpt String → Bool := fun _ => true

/-- A concrete valid text request. -/
def sampleTextRequest : UploadTextRequest :=
  { text := JsOpt.val "Man", metadata := JsOpt.val "42",
    senderPrivateKey := "pvkey", recieverPublicKey := "pubkey",
    messageType := "PLAIN" }

/-- A concrete valid binary request. -/
def sampleBinaryRequest : UploadBinaryRequest :=
  { data := JsOpt.val [1, 2, 3], metadata := JsOpt.val "42",
    senderPrivateKey := "pvkey", recieverPublicKey := "pubkey",
    messageType := "PLAIN" }

/-- A concrete signer: records the content it was given. -/
def sampleSigner : String → String → String → String → SignedTransaction :=
  fun content _ _ _ => { raw := content }

/-- A concrete announcer returning a fixed result. -/
def sampleAnnouncer : SignedTransaction → NemAnnounceResult :=
  fun tx => { type := .Validation, code := 1, message := tx.raw,
              transactionHash := "th", innerTransactionHash := "ith" }

/-- A concrete flatbuffers root accessor: reads the bytes as a string. -/
def sampleGetRoot : List Nat → ResourceHashMessage :=
  fun bs => { hash := String.mk (bs.map Char.ofNat) }

/-- A concrete JSON test rejecting everything. -/
def neverJSON : JsOpt String → Bool := fun _ => false

/-- A concrete transport that always fails. -/
def failingTransport : Transport := fun _ _ => Except.error "connection refused"

/-- A concrete transport answering every request with the base64 body
for the bytes of the string Man. -/
def sampleTransport : Transport := fun _ _ => Except.ok { body := "TWFu" }

/-! ## Claims -/

/-- Claim C1: every upload request with a missing required field (a null
payload for any of the four public upload operations, a null or
undefined text field for text uploads, a null data field for binary
uploads) throws a validation error synchronously, and no HTTP call is
attempted: the run trace is empty. -/
theorem c1_missing_required_field_throws
    (isJSON : JsOpt String → Bool) (baseUrl : String)
    (signer : String → String → String → String → SignedTransaction)
    (announcer : SignedTransaction → NemAnnounceResult)
    (getRoot : List Nat → ResourceHashMessage) (transport : Transport)
    (p : UploadTextRequest) (q : UploadBinaryRequest)
    (hp : p.text = JsOpt.null ∨ p.text = JsOpt.undef)
    (hq : q.data = JsOpt.null) :
    ((uploadTextRun isJSON baseUrl signer announcer transport none).isThrown = true
      ∧ runTrace (uploadTextRun isJSON baseUrl signer announcer transport none) = [])
    ∧ ((uploadTextToIFPSOnlyRun isJSON baseUrl getRoot transport none).isThrown = true
      ∧ runTrace (uploadTextToIFPSOnlyRun isJSON baseUrl getRoot transport none) = [])
    ∧ ((uploadBinaryRun isJSON baseUrl signer announcer transport none).isThrown = true
      ∧ runTrace (uploadBinaryRun isJSON baseUrl signer announcer transport none) = [])
    ∧ ((uploadBinaryToIPFSOnlyRun isJSON baseUrl getRoot transport none).isThrown = true
      ∧ runTrace (uploadBinaryToIPFSOnlyRun isJSON baseUrl getRoot transport none) = [])
    ∧ ((uploadTextRun isJSON baseUrl signer announcer transport (some p)).isThrown = true
      ∧ runTrace (uploadTextRun isJSON baseUrl signer announcer transport (some p)) = [])
    ∧ ((uploadTextToIFPSOnlyRun isJSON baseUrl getRoot transport (some p)).isThrown = true
      ∧ runTrace (uploadTextToIFPSOnlyRun isJSON baseUrl getRoot transport (some p)) = [])
    ∧ ((uploadBinaryRun isJSON baseUrl signer announcer transport (some q)).isThrown = true
      ∧ runTrace (uploadBinaryRun isJSON baseUrl signer announcer transport (some q)) = [])
    ∧ ((uploadBinaryToIPFSOnlyRun isJSON baseUrl getRoot transport (some q)).isThrown = true
      ∧ runTrace (uploadBinaryToIPFSOnlyRun isJSON baseUrl getRoot transport (some q)) = []) := by
  have hp3 : p.text = JsOpt.null ∨ p.text = JsOpt.undef ∨ p.text = JsOpt.val "" := by
    tauto
  have hTf := uploadTextToIPFS_thrown_of_badText isJSON baseUrl p false hp3
  have hTt := uploadTextToIPFS_thrown_of_badText isJSON baseUrl p true hp3
  have hBf : uploadBinaryToIPFS isJSON baseUrl (some q) false =
      .thrown "The request payload data field is required" := by
    simp [uploadBinaryToIPFS, hq]
  have hBt : uploadBinaryToIPFS isJSON baseUrl (some q) true =
      .thrown "The request payload data field is required" := by
    simp [uploadBinaryToIPFS, hq]
  refine ⟨⟨rfl, rfl⟩, ⟨rfl, rfl⟩, ⟨rfl, rfl⟩, ⟨rfl, rfl⟩, ?_, ?_, ?_, ?_⟩
  · exact ⟨by simp [uploadTextRun, hTf, SyncResult.andThen, SyncResult.isThrown],
      by simp [uploadTextRun, hTf, SyncResult.andThen, runTrace]⟩
  · exact ⟨by simp [uploadTextToIFPSOnlyRun, hTt, SyncResult.andThen, SyncResult.isThrown],
      by simp [uploadTextToIFPSOnlyRun, hTt, SyncResult.andThen, runTrace]⟩
  · exact ⟨by simp [uploadBinaryRun, hBf, SyncResult.andThen, SyncResult.isThrown],
      by simp [uploadBinaryRun, hBf, SyncResult.andThen, runTrace]⟩
  · exact ⟨by simp [uploadBinaryToIPFSOnlyRun, hBt, SyncResult.andThen, SyncResult.isThrown],
      by simp [uploadBinaryToIPFSOnlyRun, hBt, SyncResult.andThen, runTrace]⟩

/-- Witness for C1 at concrete inputs: a text request with a null text
field makes `uploadText` throw synchronously. -/
theorem c1_missing_required_field_throws_witness :
    (uploadTextRun alwaysJSON "b/" sampleSigner sampleAnnouncer failingTransport
      (some { sampleTextRequest with text := JsOpt.null })).isThrown = true :=
  (c1_missing_required_field_throws alwaysJSON "b/" sampleSigner sampleAnnouncer
    sampleGetRoot failingTransport
    { sampleTextRequest with text := JsOpt.null }
    { sampleBinaryRequest with data := JsOpt.null }
    (Or.inl rfl) rfl).2.2.2.2.1.1

/-- Claim C2: every upload request whose metadata fails the structured
data (JSON) test throws a validation error synchronously, and no HTTP
call is attempted: the run trace is empty. -/
theorem c2_invalid_metadata_throws
    (isJSON : JsOpt String → Bool) (baseUrl : String)
    (signer : String → String → String → String → SignedTransaction)
    (announcer : SignedTransaction → NemAnnounceResult)
    (getRoot : List Nat → ResourceHashMessage) (transport : Transport)
    (p : UploadTextRequest) (q : UploadBinaryRequest)
    (hp : isJSON p.metadata = false) (hq : isJSON q.metadata = false) :
    ((uploadTextRun isJSON baseUrl signer announcer transport (some p)).isThrown = true
      ∧ runTrace (uploadTextRun isJSON baseUrl signer announcer transport (some p)) = [])
    ∧ ((uploadTextToIFPSOnlyRun isJSON baseUrl getRoot transport (some p)).isThrown = true
      ∧ runTrace (uploadTextToIFPSOnlyRun isJSON baseUrl getRoot transport (some p)) = [])
    ∧ ((uploadBinaryRun isJSON baseUrl signer announcer transport (some q)).isThrown = true
      ∧ runTrace (uploadBinaryRun isJSON baseUrl signer announcer transport (some q)) = [])
    ∧ ((uploadBinaryToIPFSOnlyRun isJSON baseUrl getRoot transport (some q)).isThrown = true
      ∧ runTrace (uploadBinaryToIPFSOnlyRun isJSON baseUrl getRoot transport (some q)) = []) := by
  have hTf := uploadTextToIPFS_thrown_of_badMetadata isJSON baseUrl p false hp
  have hTt := uploadTextToIPFS_thrown_of_badMetadata isJSON baseUrl p true hp
  have hBf := uploadBinaryToIPFS_thrown_of_badMetadata isJSON baseUrl q false hq
  have hBt := uploadBinaryToIPFS_thrown_of_badMetadata isJSON baseUrl q true hq
  refine ⟨⟨?_, ?_⟩, ⟨?_, ?_⟩, ⟨?_, ?_⟩, ⟨?_, ?_⟩⟩
  · simpa [uploadTextRun, SyncResult.isThrown_andThen] using hTf
  · exact runTrace_andThen_of_thrown _ _ hTf
  · simpa [uploadTextToIFPSOnlyRun, SyncResult.isThrown_andThen] using hTt
  · exact runTrace_andThen_of_thrown _ _ hTt
  · simpa [uploadBinaryRun, SyncResult.isThrown_andThen] using hBf
  · exact runTrace_andThen_of_thrown _ _ hBf
  · simpa [uploadBinaryToIPFSOnlyRun, SyncResult.isThrown_andThen] using hBt
  · exact runTrace_andThen_of_thrown _ _ hBt

/-- Witness for C2 at concrete inputs: with a rejecting JSON test, a
text upload throws synchronously. -/
theorem c2_invalid_metadata_throws_witness :
    (uploadTextRun neverJSON "b/" sampleSigner sampleAnnouncer failingTransport
      (some sampleTextRequest)).isThrown = true :=
  (c2_invalid_metadata_throws neverJSON "b/" sampleSigner sampleAnnouncer
    sampleGetRoot failingTransport sampleTextRequest sampleBinaryRequest
    rfl rfl).1.1

/-- Counterexample to claim C3 at a concrete input: the public text
upload operation mutates the caller-supplied request record, namely the
code overwrites `payload.text` with its base64 encoding before
serializing the body (source line 231), so the record after the call
differs from the record the caller supplied. -/
theorem c3_immutability_counterexample :
    uploadTextPayloadAfter alwaysJSON "b/" (some sampleTextRequest) true ≠
      some sampleTextRequest := by decide

/-- Claim C3 as amended: binary upload operations never modify the
caller-supplied request record; text upload operations modify exactly
the text field, overwriting it with its base64 encoding (all the other
fields are preserved, as the record-update form shows). -/
theorem c3_amended_mutation_scope
    (isJSON : JsOpt String → Bool) (baseUrl : String)
    (payload : Option UploadBinaryRequest) (p : UploadTextRequest)
    (t : String) (rh rhb : Bool)
    (ht : p.text = JsOpt.val t) (hne : t ≠ "") (hj : isJSON p.metadata = true) :
    uploadBinaryPayloadAfter isJSON baseUrl payload rhb = payload
    ∧ uploadTextPayloadAfter isJSON baseUrl (some p) rh =
        some { p with text := JsOpt.val (btoa t) } := by
  constructor
  · cases payload with
    | none => rfl
    | some q =>
        by_cases hd : q.data = JsOpt.null
        · simp [uploadBinaryPayloadAfter, uploadBinaryToIPFS, hd]
        · by_cases hjq : isJSON q.metadata = false
          · simp [uploadBinaryPayloadAfter, uploadBinaryToIPFS, hd, hjq]
          · simp [uploadBinaryPayloadAfter, uploadBinaryToIPFS, hd, hjq]
  · simp [uploadTextPayloadAfter,
      uploadTextToIPFS_valid isJSON baseUrl p rh t ht hne hj]

/-- Witness for the amended C3 at concrete inputs. -/
theorem c3_amended_mutation_scope_witness :
    uploadBinaryPayloadAfter alwaysJSON "b/" (some sampleBinaryRequest) false =
      some sampleBinaryRequest
    ∧ uploadTextPayloadAfter alwaysJSON "b/" (some sampleTextRequest) true =
        some { sampleTextRequest with text := JsOpt.val (btoa "Man") } :=
  c3_amended_mutation_scope alwaysJSON "b/" (some sampleBinaryRequest)
    sampleTextRequest "Man" true false rfl (by decide) rfl

/-- Claim C4: for a valid text upload request the serialized request
body carries the base64 encoding (`btoa`) of the original text field;
for a valid binary upload request the data field is serialized as-is,
with no encoding applied. -/
theorem c4_text_encoded_binary_as_is
    (isJSON : JsOpt String → Bool) (baseUrl : String)
    (p : UploadTextRequest) (q : UploadBinaryRequest)
    (rh rhb : Bool) (t : String)
    (ht : p.text = JsOpt.val t) (hne : t ≠ "") (hjp : isJSON p.metadata = true)
    (hjq : isJSON q.metadata = true) (hqd : q.data ≠ JsOpt.null) :
    uploadTextToIPFS isJSON baseUrl (some p) rh =
      .ok { endpoint := baseUrl ++ "upload/text",
            payloadAfter := { p with text := JsOpt.val (btoa t) },
            bodyData := { p with text := JsOpt.val (btoa t) },
            returnHash := rh }
    ∧ uploadBinaryToIPFS isJSON baseUrl (some q) rhb =
        .ok { endpoint := baseUrl ++ "upload/bytes/binary",
              payloadAfter := q, bodyData := q, returnHash := rhb } :=
  ⟨uploadTextToIPFS_valid isJSON baseUrl p rh t ht hne hjp,
   uploadBinaryToIPFS_valid isJSON baseUrl q rhb hqd hjq⟩

/-- Witness for C4 at concrete inputs: `btoa "Man" = "TWFu"` is carried
in the body, and the binary record passes through unchanged. -/
theorem c4_text_encoded_binary_as_is_witness :
    uploadTextToIPFS alwaysJSON "b/" (some sampleTextRequest) true =
      .ok { endpoint := "b/" ++ "upload/text",
            payloadAfter := { sampleTextRequest with text := JsOpt.val "TWFu" },
            bodyData := { sampleTextRequest with text := JsOpt.val "TWFu" },
            returnHash := true }
    ∧ uploadBinaryToIPFS alwaysJSON "b/" (some sampleBinaryRequest) false =
        .ok { endpoint := "b/" ++ "upload/bytes/binary",
              payloadAfter := sampleBinaryRequest,
              bodyData := sampleBinaryRequest, returnHash := false } := by
  have h := c4_text_encoded_binary_as_is alwaysJSON "b/" sampleTextRequest
    sampleBinaryRequest true false "Man" rfl (by decide) rfl rfl (by decide)
  have hb : btoa "Man" = "TWFu" := by decide
  rw [hb] at h
  exact h

/-- Claim C5: in every execution of `uploadText` and `uploadBinary` that
passes validation, the trace is either a single HTTP upload call whose
transport failed, or the HTTP upload call followed by the signing call
and then the announce call, in that order; the signing and announce
collaborators appear only after a successful upload. -/
theorem c5_upload_then_sign_then_announce
    (isJSON : JsOpt String → Bool) (baseUrl : String)
    (signer : String → String → String → String → SignedTransaction)
    (announcer : SignedTransaction → NemAnnounceResult)
    (transport : Transport)
    (pt : Option UploadTextRequest) (pb : Option UploadBinaryRequest) :
    (match uploadTextRun isJSON baseUrl signer announcer transport pt with
     | .thrown _ => True
     | .ok (trace, _) =>
         (∃ e b err, transport e (ReqBody.textBody b) = .error err ∧
           trace = [Event.httpPost e (ReqBody.textBody b)])
         ∨ (∃ e b res tx, transport e (ReqBody.textBody b) = .ok res ∧
             trace = [Event.httpPost e (ReqBody.textBody b),
               Event.signTx res.body, Event.announceTx tx]))
    ∧ (match uploadBinaryRun isJSON baseUrl signer announcer transport pb with
       | .thrown _ => True
       | .ok (trace, _) =>
           (∃ e b err, transport e (ReqBody.binBody b) = .error err ∧
             trace = [Event.httpPost e (ReqBody.binBody b)])
           ∨ (∃ e b res tx, transport e (ReqBody.binBody b) = .ok res ∧
               trace = [Event.httpPost e (ReqBody.binBody b),
                 Event.signTx res.body, Event.announceTx tx])) := by
  constructor
  · cases hsync : uploadTextToIPFS isJSON baseUrl pt false with
    | thrown m => simp [uploadTextRun, hsync, SyncResult.andThen]
    | ok call =>
        cases htr : transport call.endpoint (ReqBody.textBody call.bodyData) with
        | error e =>
            simp only [uploadTextRun, hsync, SyncResult.andThen, htr]
            exact Or.inl ⟨call.endpoint, call.bodyData, e, htr, rfl⟩
        | ok res =>
            simp only [uploadTextRun, hsync, SyncResult.andThen, htr]
            exact Or.inr ⟨call.endpoint, call.bodyData, res, _, htr, rfl⟩
  · cases hsync : uploadBinaryToIPFS isJSON baseUrl pb false with
    | thrown m => simp [uploadBinaryRun, hsync, SyncResult.andThen]
    | ok call =>
        cases htr : transport call.endpoint (ReqBody.binBody call.bodyData) with
        | error e =>
            simp only [uploadBinaryRun, hsync, SyncResult.andThen, htr]
            exact Or.inl ⟨call.endpoint, call.bodyData, e, htr, rfl⟩
        | ok res =>
            simp only [uploadBinaryRun, hsync, SyncResult.andThen, htr]
            exact Or.inr ⟨call.endpoint, call.bodyData, res, _, htr, rfl⟩

/-- Claim C6: `uploadTextToIFPSOnly` and `uploadBinaryToIPFSOnly` never
invoke the signing or announce collaborators, for every input and every
outcome of the upload step: every event of the run trace is an HTTP
call. -/
theorem c6_only_variants_never_sign_or_announce
    (isJSON : JsOpt String → Bool) (baseUrl : String)
    (getRoot : List Nat → ResourceHashMessage) (transport : Transport)
    (pt : Option UploadTextRequest) (pb : Option UploadBinaryRequest) :
    (runTrace (uploadTextToIFPSOnlyRun isJSON baseUrl getRoot transport pt)).all
      (fun ev => !ev.isSignOrAnnounce) = true
    ∧ (runTrace (uploadBinaryToIPFSOnlyRun isJSON baseUrl getRoot transport pb)).all
        (fun ev => !ev.isSignOrAnnounce) = true := by
  constructor
  · cases hsync : uploadTextToIPFS isJSON baseUrl pt true with
    | thrown m =>
        simp [uploadTextToIFPSOnlyRun, hsync, SyncResult.andThen, runTrace]
    | ok call =>
        cases htr : transport call.endpoint (ReqBody.textBody call.bodyData) with
        | error e =>
            simp [uploadTextToIFPSOnlyRun, hsync, SyncResult.andThen, htr,
              runTrace, Event.isSignOrAnnounce]
        | ok res =>
            simp [uploadTextToIFPSOnlyRun, hsync, SyncResult.andThen, htr,
              runTrace, Event.isSignOrAnnounce]
  · cases hsync : uploadBinaryToIPFS isJSON baseUrl pb true with
    | thrown m =>
        simp [uploadBinaryToIPFSOnlyRun, hsync, SyncResult.andThen, runTrace]
    | ok call =>
        cases htr : transport call.endpoint (ReqBody.binBody call.bodyData) with
        | error e =>
            simp [uploadBinaryToIPFSOnlyRun, hsync, SyncResult.andThen, htr,
              runTrace, Event.isSignOrAnnounce]
        | ok res =>
            simp [uploadBinaryToIPFSOnlyRun, hsync, SyncResult.andThen, htr,
              runTrace, Event.isSignOrAnnounce]

/-- Claim C7: on a successful upload the response body is base64-decoded
and the bytes are interpreted through the flatbuffers root accessor,
yielding a `ResourceHashMessage`; when the body is the base64 encoding
of bytes that the accessor reads back as the message `m`
(encode-then-decode), the pipeline recovers exactly `m`, both for the
decode step in isolation and for the whole `uploadTextToIFPSOnly` run. -/
theorem c7_success_decode_roundtrip
    (getRoot : List Nat → ResourceHashMessage) (m : ResourceHashMessage)
    (bytes : List Nat) (isJSON : JsOpt String → Bool) (baseUrl : String)
    (transport : Transport) (p : UploadTextRequest) (t : String)
    (hroot : getRoot bytes = m) (hbytes : ∀ b ∈ bytes, b < 256)
    (ht : p.text = JsOpt.val t) (hne : t ≠ "") (hj : isJSON p.metadata = true)
    (htrans : transport (baseUrl ++ "upload/text")
        (ReqBody.textBody { p with text := JsOpt.val (btoa t) }) =
        .ok { body := String.mk (b64EncodeBytes bytes) }) :
    decodeUploadResponse getRoot (String.mk (b64EncodeBytes bytes)) = .ok m
    ∧ uploadTextToIFPSOnlyRun isJSON baseUrl getRoot transport (some p) =
        .ok ([Event.httpPost (baseUrl ++ "upload/text")
            (ReqBody.textBody { p with text := JsOpt.val (btoa t) })], .ok m) := by
  have h1 : b64decode (String.mk (b64EncodeBytes bytes)) = Except.ok bytes := by
    show b64DecodeBytes (b64EncodeBytes bytes) = Except.ok bytes
    exact b64_decode_encode bytes hbytes
  have hdec : decodeUploadResponse getRoot (String.mk (b64EncodeBytes bytes)) =
      .ok m := by
    simp [decodeUploadResponse, h1, hroot]
  refine ⟨hdec, ?_⟩
  rw [uploadTextToIFPSOnlyRun,
    uploadTextToIPFS_valid isJSON baseUrl p true t ht hne hj]
  simp [SyncResult.andThen, htrans, hdec]

/-- Witness for C7 at concrete inputs: the body TWFu decodes to the
bytes of Man, which the concrete accessor reads back as the message. -/
theorem c7_success_decode_roundtrip_witness :
    decodeUploadResponse sampleGetRoot "TWFu" = .ok { hash := "Man" }
    ∧ uploadTextToIFPSOnlyRun alwaysJSON "b/" sampleGetRoot sampleTransport
        (some sampleTextRequest) =
      .ok ([Event.httpPost ("b/" ++ "upload/text")
          (ReqBody.textBody { sampleTextRequest with text := JsOpt.val (btoa "Man") })],
        .ok { hash := "Man" }) :=
  c7_success_decode_roundtrip sampleGetRoot { hash := "Man" } [77, 97, 110]
    alwaysJSON "b/" sampleTransport sampleTextRequest "Man"
    rfl (by decide) rfl (by decide) rfl rfl

/-- Counterexample to claim C8 at a concrete input: with `returnHash`
false the response is never decoded in `uploadText`, so the content
handed to the signing collaborator is the raw base64 response body
(TWFu), not the decoded resource-hash record (whose hash is Man); the
two differ. -/
theorem c8_decoded_record_counterexample :
    runTrace (uploadTextRun alwaysJSON "b/" sampleSigner sampleAnnouncer
        sampleTransport (some sampleTextRequest)) =
      [Event.httpPost ("b/" ++ "upload/text")
         (ReqBody.textBody { sampleTextRequest with text := JsOpt.val "TWFu" }),
       Event.signTx "TWFu", Event.announceTx { raw := "TWFu" }]
    ∧ decodeUploadResponse sampleGetRoot "TWFu" = .ok { hash := "Man" }
    ∧ ("TWFu" : String) ≠ "Man" :=
  ⟨by decide, rfl, by decide⟩

/-- Claim C8 as amended: in the `uploadText` and `uploadBinary`
pipelines the content passed to the signing collaborator is the raw
body of the upload HTTP response (the base64-wrapped resource-hash
record; the response is not decoded on this path), together with the
key material of the request, and the value the pipeline produces is the
`NemAnnounceResult` returned by the announce collaborator. -/
theorem c8_amended_raw_body_to_signer
    (isJSON : JsOpt String → Bool) (baseUrl : String)
    (signer : String → String → String → String → SignedTransaction)
    (announcer : SignedTransaction → NemAnnounceResult)
    (transport : Transport)
    (p : UploadTextRequest) (q : UploadBinaryRequest) (t : String)
    (res resb : HttpResponse)
    (ht : p.text = JsOpt.val t) (hne : t ≠ "") (hjp : isJSON p.metadata = true)
    (htrans : transport (baseUrl ++ "upload/text")
        (ReqBody.textBody { p with text := JsOpt.val (btoa t) }) = .ok res)
    (hqd : q.data ≠ JsOpt.null) (hjq : isJSON q.metadata = true)
    (htransb : transport (baseUrl ++ "upload/bytes/binary")
        (ReqBody.binBody q) = .ok resb) :
    uploadTextRun isJSON baseUrl signer announcer transport (some p) =
      .ok ([Event.httpPost (baseUrl ++ "upload/text")
              (ReqBody.textBody { p with text := JsOpt.val (btoa t) }),
            Event.signTx res.body,
            Event.announceTx (signer res.body p.senderPrivateKey
              p.recieverPublicKey p.messageType)],
           .ok (announcer (signer res.body p.senderPrivateKey
              p.recieverPublicKey p.messageType)))
    ∧ uploadBinaryRun isJSON baseUrl signer announcer transport (some q) =
        .ok ([Event.httpPost (baseUrl ++ "upload/bytes/binary")
                (ReqBody.binBody q),
              Event.signTx resb.body,
              Event.announceTx (signer resb.body q.senderPrivateKey
                q.recieverPublicKey q.messageType)],
             .ok (announcer (signer resb.body q.senderPrivateKey
                q.recieverPublicKey q.messageType))) := by
  constructor
  · rw [uploadTextRun, uploadTextToIPFS_valid isJSON baseUrl p false t ht hne hjp]
    simp [SyncResult.andThen, htrans]
  · rw [uploadBinaryRun, uploadBinaryToIPFS_valid isJSON baseUrl q false hqd hjq]
    simp [SyncResult.andThen, htransb]

/-- Witness for the amended C8 at concrete inputs. -/
theorem c8_amended_raw_body_to_signer_witness :
    uploadTextRun alwaysJSON "b/" sampleSigner sampleAnnouncer sampleTransport
        (some sampleTextRequest) =
      .ok ([Event.httpPost ("b/" ++ "upload/text")
              (ReqBody.textBody { sampleTextRequest with text := JsOpt.val (btoa "Man") }),
            Event.signTx "TWFu",
            Event.announceTx (sampleSigner "TWFu" "pvkey" "pubkey" "PLAIN")],
           .ok (sampleAnnouncer (sampleSigner "TWFu" "pvkey" "pubkey" "PLAIN")))
    ∧ uploadBinaryRun alwaysJSON "b/" sampleSigner sampleAnnouncer sampleTransport
        (some sampleBinaryRequest) =
        .ok ([Event.httpPost ("b/" ++ "upload/bytes/binary")
                (ReqBody.binBody sampleBinaryRequest),
              Event.signTx "TWFu",
              Event.announceTx (sampleSigner "TWFu" "pvkey" "pubkey" "PLAIN")],
             .ok (sampleAnnouncer (sampleSigner "TWFu" "pvkey" "pubkey" "PLAIN"))) :=
  c8_amended_raw_body_to_signer alwaysJSON "b/" sampleSigner sampleAnnouncer
    sampleTransport sampleTextRequest sampleBinaryRequest "Man"
    { body := "TWFu" } { body := "TWFu" }
    rfl (by decide) rfl rfl (by decide) rfl rfl

/-- Claim C9: the `NemAnnounceResult` type values are exactly
Validation = 1, HeartBeat = 2, Status = 4; for type Validation code 7
means the hash of the validated entity is already in the database; the
status codes are exactly 0 through 8 and attach to the type whose
numeric value is 4; and the whole type-to-code meaning table agrees
with the spec glossary table. -/
theorem c9_announce_result_table :
    TypeNemAnnounceResult.Validation.toNat = 1
    ∧ TypeNemAnnounceResult.HeartBeat.toNat = 2
    ∧ TypeNemAnnounceResult.Status.toNat = 4
    ∧ codeMeaning TypeNemAnnounceResult.Validation 7 =
        some CodeMeaning.hashAlreadyInDatabase
    ∧ (∀ c : CodeNemAnnounceResult,
        (codeMeaning TypeNemAnnounceResult.Status c).isSome = decide (c.val ≤ 8))
    ∧ (∀ t : TypeNemAnnounceResult, ∀ c : CodeNemAnnounceResult,
        codeMeaning t c = specGlossaryCodeMeaning t c) := by
  refine ⟨rfl, rfl, rfl, rfl, by decide, ?_⟩
  intro t c
  cases t <;> revert c <;> decide

/-- Claim C10: the required-field validation is asymmetric. A text
request with an empty-string text field is rejected with the
required-field error, while a binary request whose data field is
undefined (not strictly null) passes validation and proceeds to the
HTTP call. -/
theorem c10_validation_asymmetry
    (isJSON : JsOpt String → Bool) (baseUrl : String) (rh rhb : Bool)
    (p : UploadTextRequest) (q : UploadBinaryRequest)
    (hp : p.text = JsOpt.val "") (hq : q.data = JsOpt.undef)
    (hjq : isJSON q.metadata = true) :
    uploadTextToIPFS isJSON baseUrl (some p) rh =
      .thrown "The request payload text field is required"
    ∧ uploadBinaryToIPFS isJSON baseUrl (some q) rhb =
        .ok { endpoint := baseUrl ++ "upload/bytes/binary",
              payloadAfter := q, bodyData := q, returnHash := rhb } :=
  ⟨uploadTextToIPFS_thrown_of_badText isJSON baseUrl p rh (Or.inr (Or.inr hp)),
   uploadBinaryToIPFS_valid isJSON baseUrl q rhb (by simp [hq]) hjq⟩

/-- Witness for C10 at concrete inputs. -/
theorem c10_validation_asymmetry_witness :
    uploadTextToIPFS alwaysJSON "b/"
        (some { sampleTextRequest with text := JsOpt.val "" }) true =
      .thrown "The request payload text field is required"
    ∧ uploadBinaryToIPFS alwaysJSON "b/"
        (some { sampleBinaryRequest with data := JsOpt.undef }) false =
        .ok { endpoint := "b/" ++ "upload/bytes/binary",
              payloadAfter := { sampleBinaryRequest with data := JsOpt.undef },
              bodyData := { sampleBinaryRequest with data := JsOpt.undef },
              returnHash := false } :=
  c10_validation_asymmetry alwaysJSON "b/" true false
    { sampleTextRequest with text := JsOpt.val "" }
    { sampleBinaryRequest with data := JsOpt.undef }
    rfl rfl rfl

end XpxSdk
